import Mathlib

/-!
Verification of the recipe-catalog web application (`src/main.py`).

The application is a FastAPI/SQLAlchemy CRUD app over a single `recipes`
table.  We embed it shallowly:

* the stored table is a `List Recipe` in rowid (insertion) order, which is
  the order SQLite returns rows in for the unordered queries the app issues;
* each request handler becomes a pure function taking the store and
  returning the (possibly updated) store together with its response data;
* SQLite's auto-assigned integer primary key is modelled as max-id-plus-one;
* the `ILIKE '%query%'` filter of the search handler is modelled by a SQL
  LIKE pattern matcher over ASCII-lowercased code points ('%' = 37 matches
  any sequence, '_' = 95 matches any single character), which is SQLite's
  semantics for `lower(col) LIKE lower(pattern)`;
* Python's `str.split(sep)` / `str.strip()` used by the detail handler are
  implemented character-structurally (`pySplitChars` / `pyStripChars`);
* the fallible `db.commit()` of the add handler is driven by an explicit
  `DbOutcome` oracle: a successful commit persists the row, an
  `IntegrityError` (or any other exception) leaves the table untouched
  after the handler's `db.rollback()`.
-/

/-- The `Recipe` SQLAlchemy model: one row of the `recipes` table. -/
structure Recipe where
  id : Nat
  name : String
  cuisine : String
  prep_time : String
  cook_time : String
  servings : String
  ingredients : String
  instructions : String
  image_color : String
deriving DecidableEq

/-- The column values of a recipe before the database assigns an id:
exactly the eight keyword arguments passed to the `Recipe(...)` constructor
by the seeding routine and by `add_recipe_submit`. -/
structure RecipeData where
  name : String
  cuisine : String
  prep_time : String
  cook_time : String
  servings : String
  ingredients : String
  instructions : String
  image_color : String
deriving DecidableEq

/-- The stored `recipes` table, in rowid (insertion) order. -/
abbrev Store := List Recipe

/-- SQLite assigns a new integer primary key of max existing id plus one. -/
def newId (s : Store) : Nat := (s.map (fun r => r.id)).foldr max 0 + 1

/-- Attach a concrete id to column data, as the database does on insert. -/
def withId (n : Nat) (d : RecipeData) : Recipe :=
  { id := n, name := d.name, cuisine := d.cuisine, prep_time := d.prep_time,
    cook_time := d.cook_time, servings := d.servings, ingredients := d.ingredients,
    instructions := d.instructions, image_color := d.image_color }

/-- `db.add` followed by a successful `db.commit`: the row is appended to the
table with a fresh auto-assigned id. -/
def insertRecipe (s : Store) (d : RecipeData) : Store :=
  s ++ [withId (newId s) d]

/-- First demo record of `seed_database`. -/
def carbonaraData : RecipeData :=
  { name := "Spaghetti Carbonara", cuisine := "Italian", prep_time := "15 min",
    cook_time := "20 min", servings := "4",
    ingredients := "Pasta, Eggs, Pecorino Romano, Guanciale/Pancetta, Black Pepper",
    instructions := "1. Cook pasta. 2. Fry guanciale. 3. Mix eggs, cheese, pepper. 4. Combine all.",
    image_color := "#F4A261" }

/-- Second demo record of `seed_database`. -/
def tikkaData : RecipeData :=
  { name := "Chicken Tikka Masala", cuisine := "Indian", prep_time := "30 min",
    cook_time := "45 min", servings := "6",
    ingredients := "Chicken, Yogurt, Spices, Tomatoes, Cream",
    instructions := "1. Marinate chicken. 2. Cook chicken. 3. Make sauce. 4. Combine.",
    image_color := "#E76F51" }

/-- Third demo record of `seed_database`. -/
def tacosData : RecipeData :=
  { name := "Beef Tacos", cuisine := "Mexican", prep_time := "20 min",
    cook_time := "25 min", servings := "4",
    ingredients := "Ground Beef, Tortillas, Lettuce, Cheese, Salsa, Taco Seasoning",
    instructions := "1. Cook beef. 2. Warm tortillas. 3. Assemble tacos.",
    image_color := "#2A9D8F" }

/-- Fourth demo record of `seed_database`. -/
def sushiData : RecipeData :=
  { name := "Sushi Rolls", cuisine := "Japanese", prep_time := "60 min",
    cook_time := "0 min", servings := "2",
    ingredients := "Sushi Rice, Nori, Fish, Avocado, Cucumber",
    instructions := "1. Cook sushi rice. 2. Prepare fillings. 3. Roll sushi.",
    image_color := "#E9C46A" }

/-- Fifth demo record of `seed_database`. -/
def onionSoupData : RecipeData :=
  { name := "French Onion Soup", cuisine := "French", prep_time := "20 min",
    cook_time := "60 min", servings := "4",
    ingredients := "Onions, Beef Broth, Baguette, Gruyere Cheese, Butter",
    instructions := "1. Caramelize onions. 2. Add broth. 3. Toast bread, melt cheese.",
    image_color := "#DDA15E" }

/-- Sixth demo record of `seed_database`. -/
def padThaiData : RecipeData :=
  { name := "Pad Thai", cuisine := "Thai", prep_time := "25 min",
    cook_time := "30 min", servings := "2",
    ingredients := "Rice Noodles, Shrimp/Tofu, Peanuts, Bean Sprouts, Egg, Tamarind Sauce",
    instructions := "1. Soak noodles. 2. Cook protein. 3. Stir-fry with sauce and veggies.",
    image_color := "#F5D491" }

/-- Seventh demo record of `seed_database`. -/
def medSaladData : RecipeData :=
  { name := "Mediterranean Salad", cuisine := "Mediterranean", prep_time := "15 min",
    cook_time := "0 min", servings := "3",
    ingredients := "Cucumbers, Tomatoes, Feta, Olives, Red Onion, Olive Oil, Lemon Juice",
    instructions := "1. Chop veggies. 2. Crumble feta. 3. Dress and serve.",
    image_color := "#8BC34A" }

/-- Eighth demo record of `seed_database`. -/
def lasagnaData : RecipeData :=
  { name := "Classic Lasagna", cuisine := "Italian", prep_time := "30 min",
    cook_time := "60 min", servings := "8",
    ingredients := "Lasagna Noodles, Ground Beef, Ricotta, Mozzarella, Marinara Sauce",
    instructions := "1. Cook meat sauce. 2. Layer noodles, sauce, cheese. 3. Bake.",
    image_color := "#CD5C5C" }

/-- The `recipes_data` literal of `seed_database`, in source order. -/
def recipes_data : List RecipeData :=
  [carbonaraData, tikkaData, tacosData, sushiData, onionSoupData, padThaiData,
   medSaladData, lasagnaData]

/-- `seed_database`: if `db.query(Recipe).count() == 0`, add every demo record
and commit; otherwise do nothing. -/
def seed_database (s : Store) : Store :=
  if s.length = 0 then recipes_data.foldl insertRecipe s else s

/-- The table produced by seeding an empty store: the eight demo records with
sequentially assigned ids 1 through 8, in source order. -/
def seededStore : Store :=
  [withId 1 carbonaraData, withId 2 tikkaData, withId 3 tacosData, withId 4 sushiData,
   withId 5 onionSoupData, withId 6 padThaiData, withId 7 medSaladData, withId 8 lasagnaData]


/-- `health_check`: returns the payload `{"status": "ok"}` and touches no
database session at all; we still thread the store through for the frame
theorems. -/
def health_check (s : Store) : Store × List (String × String) :=
  (s, [("status", "ok")])

/-- `home`: `db.query(Recipe).all()` — every row, in rowid (insertion)
order, passed to the renderer. -/
def home (s : Store) : Store × List Recipe :=
  (s, s)

/-- Python's `str.strip()` truthiness test characters: ASCII whitespace. -/
def isPySpace (c : Char) : Bool :=
  c = ' ' || c = '\t' || c = '\n' || c = '\r' || c = '\x0b' || c = '\x0c'

/-- Python's `str.strip()` on the character list: drop leading and trailing
whitespace. -/
def pyStripChars (l : List Char) : List Char :=
  ((l.dropWhile isPySpace).reverse.dropWhile isPySpace).reverse

/-- Python's `str.split(sep)` for a one-character separator: split on every
occurrence, keeping empty parts, so the result always has one more part than
there are separators. -/
def pySplitChars (sep : Char) : List Char → List (List Char)
  | [] => [[]]
  | c :: cs =>
    if c = sep then [] :: pySplitChars sep cs
    else
      match pySplitChars sep cs with
      | [] => [[c]]
      | h :: t => (c :: h) :: t

/-- Python's `text.split(sep)` at the `String` level. -/
def pySplit (sep : Char) (text : String) : List String :=
  (pySplitChars sep text.data).map String.mk

/-- Python's `s.strip()` at the `String` level. -/
def pyStrip (s : String) : String := String.mk (pyStripChars s.data)

/-- The list comprehension `[item.strip() for item in text.split(sep) if
item.strip()]` of the detail handler: split, strip each fragment, and keep
only the fragments that are non-empty after stripping. -/
def stripSplit (sep : Char) (text : String) : List String :=
  ((pySplit sep text).map pyStrip).filter (fun item => item ≠ "")

/-- The view data the detail handler passes to `recipe_detail.html`: the row
plus the two derived display lists it injects on the recipe object. -/
structure DetailView where
  recipe : Recipe
  ingredients_list : List String
  instructions_list : List String
deriving DecidableEq

/-- Outcome of the `recipe_detail` handler: either the rendered view, or the
`HTTPException(status_code=404, detail="Recipe not found")` raised when no
row matches. -/
inductive DetailResult where
  | notFound (status : Nat) (detail : String)
  | ok (view : DetailView)
deriving DecidableEq

/-- `recipe_detail`: `db.query(Recipe).filter(Recipe.id == recipe_id).first()`
is the first matching row in rowid order; `None` becomes a 404, otherwise the
ingredients text is split on commas and the instructions text on periods. -/
def recipe_detail (s : Store) (recipe_id : Nat) : Store × DetailResult :=
  (s,
    match s.find? (fun r => r.id == recipe_id) with
    | none => .notFound 404 "Recipe not found"
    | some r =>
      .ok { recipe := r,
            ingredients_list := stripSplit ',' r.ingredients,
            instructions_list := stripSplit '.' r.instructions })

/-- Response of the add-recipe handler body: the 303 redirect to `/` on
success, or the re-rendered `add_recipe.html` form carrying an optional
error and optional message. -/
inductive AddResponse where
  | redirect (url : String) (status : Nat)
  | form (error : Option String) (message : Option String)
deriving DecidableEq

/-- `add_recipe_form` (GET): render the empty form with no message and no
error. -/
def add_recipe_form (s : Store) : Store × AddResponse :=
  (s, .form none none)

/-- A submitted add-recipe form: each field is either absent from the POST
body (`none`) or present with a (possibly empty) string value. -/
structure FormData where
  name : Option String
  cuisine : Option String
  prep_time : Option String
  cook_time : Option String
  servings : Option String
  ingredients : Option String
  instructions : Option String
  image_color : Option String
deriving DecidableEq

/-- FastAPI's form binding treats a field as not provided when it is absent
from the body or submitted as the empty string (`value is None or
(isinstance(field_info, params.Form) and value == "")` in
`request_body_to_args`). -/
def fieldMissing : Option String → Bool
  | none => true
  | some v => v == ""

/-- The form-binding layer for the `add_recipe_submit` parameter list: every
`Form(...)` parameter must be provided or binding fails with a validation
error and the handler body never runs; the `Optional[str] = Form("#cccccc")`
parameter falls back to its declared default when not provided. -/
def bindForm (fd : FormData) : Option RecipeData :=
  if fieldMissing fd.name || fieldMissing fd.cuisine || fieldMissing fd.prep_time ||
     fieldMissing fd.cook_time || fieldMissing fd.servings || fieldMissing fd.ingredients ||
     fieldMissing fd.instructions then
    none
  else
    some { name := fd.name.getD "", cuisine := fd.cuisine.getD "",
           prep_time := fd.prep_time.getD "", cook_time := fd.cook_time.getD "",
           servings := fd.servings.getD "", ingredients := fd.ingredients.getD "",
           instructions := fd.instructions.getD "",
           image_color := if fieldMissing fd.image_color then "#cccccc"
                          else fd.image_color.getD "" }

/-- How the database resolves the `db.commit()` of `add_recipe_submit`: a
successful commit, an `IntegrityError`, or any other exception with its
message. -/
inductive DbOutcome where
  | ok
  | integrityError
  | otherError (msg : String)
deriving DecidableEq

/-- Body of `add_recipe_submit` after binding: construct the row and try to
insert it.  A successful commit appends the row and redirects to
`url_path_for("home") = "/"` with status 303; on `IntegrityError` (or any
other exception) `db.rollback()` leaves the table exactly as it was and the
form is re-rendered with an error message. -/
def add_recipe_submit (s : Store) (sub : RecipeData) (outcome : DbOutcome) :
    Store × AddResponse :=
  match outcome with
  | .ok => (insertRecipe s sub, .redirect "/" 303)
  | .integrityError =>
    (s, .form (some "Failed to add recipe. Please check your input.") none)
  | .otherError e =>
    (s, .form (some ("An unexpected error occurred: " ++ e)) none)

/-- Result of the POST `/add_recipe` route as a whole.  When the
form-binding layer rejects the submission, FastAPI's default
`RequestValidationError` handler answers with an HTTP 422 JSON error
document listing the missing fields (`src/main.py` installs no custom
exception handler); this is a client-error response distinct from every
rendered page, in particular from the re-rendered add form — the handler
body never runs. -/
inductive RouteResult where
  | validationFailure (status : Nat)
  | handled (r : AddResponse)
deriving DecidableEq

/-- The POST `/add_recipe` route: bind the form; if binding fails the handler
body never runs and the store is untouched, otherwise run
`add_recipe_submit`. -/
def add_recipe_route (s : Store) (fd : FormData) (outcome : DbOutcome) :
    Store × RouteResult :=
  match bindForm fd with
  | none => (s, .validationFailure 422)
  | some sub =>
    let res := add_recipe_submit s sub outcome
    (res.1, .handled res.2)

/-- Is a route result a rendered `add_recipe.html` form response (as opposed
to a redirect or the framework's 422 validation document)? -/
def isFormResponse : RouteResult → Bool
  | .handled (.form _ _) => true
  | _ => false

/-- SQLite's `lower()` applied to one code point: only ASCII `A`–`Z` (65–90)
are folded; every other code point is unchanged. -/
def lowerCode (n : Nat) : Nat :=
  if 65 ≤ n ∧ n ≤ 90 then n + 32 else n

/-- A string as the list of its SQLite-lowercased code points. -/
def lowerCodes (s : String) : List Nat :=
  s.data.map (fun c => lowerCode c.toNat)

/-- Fuel-indexed SQL LIKE matcher over code-point lists: `37` (`%`) matches
any sequence of characters, `95` (`_`) matches exactly one character, and any
other pattern code matches one equal character.  The fuel only bounds the
recursion; `likeMatch` always supplies enough. -/
def likeAux : Nat → List Nat → List Nat → Bool
  | 0, _, _ => false
  | _ + 1, [], [] => true
  | _ + 1, [], _ :: _ => false
  | f + 1, p :: ps, [] => if p = 37 then likeAux f ps [] else false
  | f + 1, p :: ps, c :: s =>
    if p = 37 then likeAux f ps (c :: s) || likeAux f (p :: ps) s
    else if p = 95 then likeAux f ps s
    else (p == c) && likeAux f ps s

/-- SQL `LIKE`: does the pattern match the whole string? -/
def likeMatch (p s : List Nat) : Bool :=
  likeAux (p.length + s.length + 1) p s

/-- One `col.ilike(f"%{query}%")` condition: SQLite evaluates
`lower(col) LIKE lower('%' + query + '%')`. -/
def ilikeContains (fld query : String) : Bool :=
  likeMatch (37 :: (lowerCodes query ++ [37])) (lowerCodes fld)

/-- `search_recipes`: with an empty query the filter never runs and the
result list stays `[]`; otherwise the three `ilike` conditions are OR-ed and
the matching rows are returned in rowid order, together with the echoed
query string. -/
def search_recipes (s : Store) (query : String) : Store × List Recipe × String :=
  (s,
   (if query = "" then []
    else s.filter (fun r =>
      ilikeContains r.name query || ilikeContains r.ingredients query ||
      ilikeContains r.cuisine query),
    query))

/-- Case-sensitive substring containment on code-point lists, via a leading
match check at every suffix. -/
def isPrefixN : List Nat → List Nat → Bool
  | [], _ => true
  | _ :: _, [] => false
  | a :: as, b :: bs => (a == b) && isPrefixN as bs

/-- Does `q` occur as a contiguous sublist of the second argument? -/
def containsSub (q : List Nat) : List Nat → Bool
  | [] => q.isEmpty
  | c :: s => isPrefixN q (c :: s) || containsSub q s

/-- The spec's wording of one search condition: the query is a
case-insensitive substring of the field. -/
def substrCI (fld query : String) : Bool :=
  containsSub (lowerCodes query) (lowerCodes fld)

/-- The spec's wording of the search operation (§4.1c / §4.7): empty query
gives the empty result; otherwise exactly the rows where the query is a
case-insensitive substring of the name, ingredients, or cuisine. -/
def searchSpec (s : Store) (query : String) : List Recipe :=
  if query = "" then []
  else s.filter (fun r =>
    substrCI r.name query || substrCI r.ingredients query || substrCI r.cuisine query)

/-- A small concrete recipe used to instantiate the theorems. -/
def pieRecipe : Recipe :=
  { id := 1, name := "Pie", cuisine := "US", prep_time := "5 min", cook_time := "10 min",
    servings := "2", ingredients := "Egg, Flour", instructions := "Mix. Bake.",
    image_color := "#abc123" }

/-- A fully filled add-recipe form with `image_color` not provided. -/
def pieForm : FormData :=
  { name := some "Pie", cuisine := some "US", prep_time := some "5 min",
    cook_time := some "10 min", servings := some "2", ingredients := some "Egg, Flour",
    instructions := some "Mix. Bake.", image_color := none }

/-- The submission that `pieForm` binds to. -/
def pieData : RecipeData :=
  { name := "Pie", cuisine := "US", prep_time := "5 min", cook_time := "10 min",
    servings := "2", ingredients := "Egg, Flour", instructions := "Mix. Bake.",
    image_color := "#cccccc" }

/-- The form `pieForm` with the required `name` field absent. -/
def noNameForm : FormData :=
  { pieForm with name := none }

/-- The form `pieForm` with `image_color` explicitly submitted as the empty
string. -/
def emptyColorForm : FormData :=
  { pieForm with image_color := some "" }

/-- The form `pieForm` with `image_color` explicitly submitted as
`"#00ff00"`. -/
def greenColorForm : FormData :=
  { pieForm with image_color := some "#00ff00" }

/-- The submission that `greenColorForm` binds to. -/
def greenData : RecipeData :=
  { pieData with image_color := "#00ff00" }

/-- The detail-view example recipe from the claim about derived display
lists: ingredients `"Pasta, Eggs, Pecorino Romano"` and instructions
`"1. Cook pasta. 2. Fry guanciale."`. -/
def exampleRecipe : Recipe :=
  { id := 1, name := "Carbonara Example", cuisine := "Italian", prep_time := "15 min",
    cook_time := "20 min", servings := "4",
    ingredients := "Pasta, Eggs, Pecorino Romano",
    instructions := "1. Cook pasta. 2. Fry guanciale.", image_color := "#F4A261" }

/-- The view the detail handler derives for `exampleRecipe`. -/
def exampleView : DetailView :=
  { recipe := exampleRecipe,
    ingredients_list := ["Pasta", "Eggs", "Pecorino Romano"],
    instructions_list := ["1", "Cook pasta", "2", "Fry guanciale"] }

theorem likeAux_fuel (f : Nat) : ∀ (g : Nat) (p s : List Nat),
    p.length + s.length < f → p.length + s.length < g →
    likeAux f p s = likeAux g p s := by
  induction f with
  | zero => intro g p s hf hg; omega
  | succ f ih =>
    intro g p s hf hg
    cases g with
    | zero => omega
    | succ g =>
      cases p with
      | nil =>
        cases s with
        | nil => rfl
        | cons c s => rfl
      | cons p ps =>
        cases s with
        | nil =>
          simp only [likeAux]
          rw [ih g ps [] (by simp at hf ⊢; omega) (by simp at hg ⊢; omega)]
        | cons c s =>
          simp only [likeAux]
          rw [ih g ps (c :: s) (by simp at hf ⊢; omega) (by simp at hg ⊢; omega),
              ih g (p :: ps) s (by simp at hf ⊢; omega) (by simp at hg ⊢; omega),
              ih g ps s (by simp at hf ⊢; omega) (by simp at hg ⊢; omega)]

theorem likeMatch_eq_aux (f : Nat) (p s : List Nat) (h : p.length + s.length < f) :
    likeMatch p s = likeAux f p s :=
  likeAux_fuel (p.length + s.length + 1) f p s (by omega) h

theorem likeMatch_nil_nil : likeMatch [] [] = true := rfl

theorem likeMatch_nil_cons (c : Nat) (s : List Nat) : likeMatch [] (c :: s) = false := rfl

theorem likeMatch_cons_nil (p : Nat) (ps : List Nat) :
    likeMatch (p :: ps) [] = if p = 37 then likeMatch ps [] else false := by
  rw [likeMatch_eq_aux (ps.length + 2) (p :: ps) [] (by simp)]
  simp only [likeAux]
  rw [← likeMatch_eq_aux (ps.length + 1) ps [] (by simp)]

theorem likeMatch_cons_cons (p c : Nat) (ps s : List Nat) :
    likeMatch (p :: ps) (c :: s) =
      if p = 37 then likeMatch ps (c :: s) || likeMatch (p :: ps) s
      else if p = 95 then likeMatch ps s
      else (p == c) && likeMatch ps s := by
  rw [likeMatch_eq_aux (ps.length + s.length + 3) (p :: ps) (c :: s) (by simp only [List.length_cons, List.length_nil]; omega)]
  simp only [likeAux]
  rw [← likeMatch_eq_aux (ps.length + s.length + 2) ps (c :: s) (by simp only [List.length_cons, List.length_nil]; omega),
      ← likeMatch_eq_aux (ps.length + s.length + 2) (p :: ps) s (by simp only [List.length_cons, List.length_nil]; omega),
      ← likeMatch_eq_aux (ps.length + s.length + 2) ps s (by omega)]

theorem likeMatch_pct_all (s : List Nat) : likeMatch [37] s = true := by
  induction s with
  | nil => rfl
  | cons c s ih =>
    rw [likeMatch_cons_cons]
    simp [likeMatch_nil_cons, ih]

theorem likeMatch_lit_append : ∀ (q : List Nat), 37 ∉ q → 95 ∉ q →
    ∀ s, likeMatch (q ++ [37]) s = isPrefixN q s := by
  intro q
  induction q with
  | nil =>
    intro _ _ s
    simpa [isPrefixN] using likeMatch_pct_all s
  | cons a q ih =>
    intro h37 h95 s
    have ha37 : a ≠ 37 := by intro h; exact h37 (by simp [h])
    have ha95 : a ≠ 95 := by intro h; exact h95 (by simp [h])
    have hq37 : 37 ∉ q := by intro h; exact h37 (by simp [h])
    have hq95 : 95 ∉ q := by intro h; exact h95 (by simp [h])
    cases s with
    | nil =>
      simp only [List.cons_append, likeMatch_cons_nil, isPrefixN]
      simp [ha37]
    | cons c s =>
      simp only [List.cons_append, likeMatch_cons_cons, isPrefixN]
      simp [ha37, ha95, ih hq37 hq95]

theorem isPrefixN_nil (q : List Nat) : isPrefixN q [] = q.isEmpty := by
  cases q <;> simp [isPrefixN]

theorem likeMatch_substring (q : List Nat) (h37 : 37 ∉ q) (h95 : 95 ∉ q) :
    ∀ s, likeMatch (37 :: (q ++ [37])) s = containsSub q s := by
  intro s
  induction s with
  | nil =>
    rw [likeMatch_cons_nil]
    simp [likeMatch_lit_append q h37 h95, isPrefixN_nil, containsSub]
  | cons c s ih =>
    rw [likeMatch_cons_cons]
    simp only [containsSub]
    simp [likeMatch_lit_append q h37 h95, ih]

theorem lowerCodes_not_mem_37 (q : String) (h : 37 ∉ q.data.map Char.toNat) :
    37 ∉ lowerCodes q := by
  intro hm
  simp only [lowerCodes, List.mem_map] at hm
  obtain ⟨c, hc, he⟩ := hm
  unfold lowerCode at he
  split at he
  · omega
  · exact h (List.mem_map.mpr ⟨c, hc, he⟩)

theorem lowerCodes_not_mem_95 (q : String) (h : 95 ∉ q.data.map Char.toNat) :
    95 ∉ lowerCodes q := by
  intro hm
  simp only [lowerCodes, List.mem_map] at hm
  obtain ⟨c, hc, he⟩ := hm
  unfold lowerCode at he
  split at he
  · omega
  · exact h (List.mem_map.mpr ⟨c, hc, he⟩)

theorem search_recipes_eq_spec (s : Store) (query : String)
    (h37 : 37 ∉ query.data.map Char.toNat) (h95 : 95 ∉ query.data.map Char.toNat) :
    (search_recipes s query).2.1 = searchSpec s query := by
  have l37 := lowerCodes_not_mem_37 query h37
  have l95 := lowerCodes_not_mem_95 query h95
  simp only [search_recipes, searchSpec]
  by_cases hq : query = ""
  · simp [hq]
  · simp only [if_neg hq]
    apply List.filter_congr
    intro r _
    simp only [ilikeContains, substrCI, likeMatch_substring (lowerCodes query) l37 l95]

theorem bindForm_fields (fd : FormData) (sub : RecipeData) (h : bindForm fd = some sub) :
    sub = { name := fd.name.getD "", cuisine := fd.cuisine.getD "",
            prep_time := fd.prep_time.getD "", cook_time := fd.cook_time.getD "",
            servings := fd.servings.getD "", ingredients := fd.ingredients.getD "",
            instructions := fd.instructions.getD "",
            image_color := if fieldMissing fd.image_color then "#cccccc"
                           else fd.image_color.getD "" } := by
  unfold bindForm at h
  split at h
  · simp at h
  · exact (Option.some.inj h).symm

/-- Claim C1: a valid add-recipe submission — one where all seven required
text fields bind — appends exactly one record, so the count grows by one;
every field of the new record equals the corresponding submitted value, and
`image_color` is `"#cccccc"` when that field was omitted. -/
theorem add_recipe_valid_submission (s : Store) (fd : FormData) (sub : RecipeData)
    (h : bindForm fd = some sub) :
    (add_recipe_route s fd .ok).1.length = s.length + 1 ∧
    ∃ r : Recipe,
      (add_recipe_route s fd .ok).1 = s ++ [r] ∧
      (∀ v, fd.name = some v → r.name = v) ∧
      (∀ v, fd.cuisine = some v → r.cuisine = v) ∧
      (∀ v, fd.prep_time = some v → r.prep_time = v) ∧
      (∀ v, fd.cook_time = some v → r.cook_time = v) ∧
      (∀ v, fd.servings = some v → r.servings = v) ∧
      (∀ v, fd.ingredients = some v → r.ingredients = v) ∧
      (∀ v, fd.instructions = some v → r.instructions = v) ∧
      (fd.image_color = none → r.image_color = "#cccccc") := by
  have hsub := bindForm_fields fd sub h
  have hr : add_recipe_route s fd .ok =
      (insertRecipe s sub, .handled (.redirect "/" 303)) := by
    simp [add_recipe_route, h, add_recipe_submit]
  rw [hr]
  refine ⟨by simp [insertRecipe], withId (newId s) sub, rfl, ?_, ?_, ?_, ?_, ?_, ?_, ?_, ?_⟩
  · intro v hv; simp [withId, hsub, hv]
  · intro v hv; simp [withId, hsub, hv]
  · intro v hv; simp [withId, hsub, hv]
  · intro v hv; simp [withId, hsub, hv]
  · intro v hv; simp [withId, hsub, hv]
  · intro v hv; simp [withId, hsub, hv]
  · intro v hv; simp [withId, hsub, hv]
  · intro hv; simp [withId, hsub, hv, fieldMissing]

/-- Claim C1 witness: inserting the concrete valid submission `pieForm` into
the empty store grows the count from 0 to 1. -/
theorem add_recipe_valid_submission_w :
    (add_recipe_route [] pieForm .ok).1.length = ([] : Store).length + 1 :=
  (add_recipe_valid_submission [] pieForm pieData (by decide)).1

/-- Claim C2: seeding an empty store inserts the fixed ordered demo list
(eight records, ids 1 through 8, count exactly 8), seeding a non-empty store
changes nothing, and hence seeding twice equals seeding once on every
store. -/
theorem seed_database_idempotent :
    seed_database [] = seededStore ∧
    (seed_database []).length = 8 ∧
    (∀ s : Store, s ≠ [] → seed_database s = s) ∧
    (∀ s : Store, seed_database (seed_database s) = seed_database s) := by
  refine ⟨by decide, by decide, ?_, ?_⟩
  · intro s hs
    cases s with
    | nil => exact absurd rfl hs
    | cons a l => simp [seed_database]
  · intro s
    cases s with
    | nil => decide
    | cons a l => simp [seed_database]

/-- Claim C2 witness: seeding a store that already holds one record changes
nothing. -/
theorem seed_database_idempotent_w : seed_database [pieRecipe] = [pieRecipe] :=
  seed_database_idempotent.2.2.1 [pieRecipe] (by decide)

/-- Claim C3 counterexample: on the claim's own instructions text
`"1. Cook pasta. 2. Fry guanciale."` the handler splits at every period, so
the step numbers are cut off from the step bodies and the derived list is
not `["1. Cook pasta", "2. Fry guanciale"]`. -/
theorem recipe_detail_splits_cex :
    (recipe_detail [exampleRecipe] 1).2 ≠
      .ok { recipe := exampleRecipe,
            ingredients_list := ["Pasta", "Eggs", "Pecorino Romano"],
            instructions_list := ["1. Cook pasta", "2. Fry guanciale"] } := by decide

/-- Claim C3 (amended): the detail handler's derived lists split the stored
ingredients on commas and the stored instructions on periods, trimming
whitespace and dropping empty fragments; for ingredients
`"Pasta, Eggs, Pecorino Romano"` this gives
`["Pasta", "Eggs", "Pecorino Romano"]`, and for instructions
`"1. Cook pasta. 2. Fry guanciale."` it gives
`["1", "Cook pasta", "2", "Fry guanciale"]`. -/
theorem recipe_detail_splits (s : Store) (i : Nat) (dv : DetailView)
    (h : (recipe_detail s i).2 = .ok dv) :
    (dv.ingredients_list = stripSplit ',' dv.recipe.ingredients ∧
      dv.instructions_list = stripSplit '.' dv.recipe.instructions) ∧
    (recipe_detail [exampleRecipe] 1).2 = .ok exampleView := by
  constructor
  · simp only [recipe_detail] at h
    cases hf : s.find? (fun r => r.id == i) with
    | none => simp [hf] at h
    | some r =>
      simp only [hf] at h
      cases h
      simp
  · decide

/-- Claim C3 witness: the derived lists of the concrete example view are the
comma and period splits of its recipe's stored texts. -/
theorem recipe_detail_splits_w :
    exampleView.ingredients_list = stripSplit ',' exampleView.recipe.ingredients ∧
    exampleView.instructions_list = stripSplit '.' exampleView.recipe.instructions :=
  (recipe_detail_splits [exampleRecipe] 1 exampleView (by decide)).1

/-- Claim C4 counterexample: the query string `"_"` is an SQL LIKE wildcard
in the code's `ilike('%' + query + '%')` filter, so it matches the stored
recipe even though `"_"` is not a case-insensitive substring of its name,
ingredients, or cuisine — the result differs from the claimed substring
semantics. -/
theorem search_recipes_wildcard_cex :
    (search_recipes [pieRecipe] "_").2.1 ≠ searchSpec [pieRecipe] "_" := by decide

/-- Claim C4 witness: for the wildcard-free query `"egg"` the search result
equals the substring-semantics result. -/
theorem search_recipes_eq_spec_w :
    (search_recipes [pieRecipe] "egg").2.1 = searchSpec [pieRecipe] "egg" :=
  search_recipes_eq_spec [pieRecipe] "egg" (by decide) (by decide)

/-- Claim C5: the detail operation yields the 404 `Recipe not found`
response exactly when no stored record has the requested id, and yields a
rendered view whenever some record does. -/
theorem recipe_detail_not_found (s : Store) (i : Nat) :
    ((∀ r ∈ s, r.id ≠ i) → (recipe_detail s i).2 = .notFound 404 "Recipe not found") ∧
    ((∃ r ∈ s, r.id = i) → ∃ dv, (recipe_detail s i).2 = .ok dv) := by
  constructor
  · intro hnone
    have hf : s.find? (fun r => r.id == i) = none := by
      rw [List.find?_eq_none]
      intro r hr
      simp [hnone r hr]
    simp [recipe_detail, hf]
  · intro hex
    obtain ⟨r, hr, hi⟩ := hex
    have hs : (s.find? (fun r => r.id == i)).isSome := by
      rw [List.find?_isSome]
      exact ⟨r, hr, by simp [hi]⟩
    obtain ⟨r', hr'⟩ := Option.isSome_iff_exists.mp hs
    refine ⟨{ recipe := r', ingredients_list := stripSplit ',' r'.ingredients,
              instructions_list := stripSplit '.' r'.instructions }, ?_⟩
    simp [recipe_detail, hr']

/-- Claim C5 witness: id 99 was never inserted into the one-recipe store, so
the detail handler answers 404; id 1 is present, so it succeeds. -/
theorem recipe_detail_not_found_w :
    (recipe_detail [pieRecipe] 99).2 = .notFound 404 "Recipe not found" :=
  (recipe_detail_not_found [pieRecipe] 99).1 (by decide)

/-- Claim C6: when the insert raises an IntegrityError the handler rolls
back — the resulting store is exactly the pre-attempt store, no partial
write — and re-renders the add form with an error message instead of
redirecting. -/
theorem add_recipe_integrity_rollback (s : Store) (sub : RecipeData) :
    add_recipe_submit s sub .integrityError =
      (s, .form (some "Failed to add recipe. Please check your input.") none) := rfl

/-- Claim C7 counterexample: submitting the concrete form with no `name`
field yields the framework's 422 validation document, which is not a
re-rendered form response — so the missing-field failure is not "surfaced as
a re-rendered form with an error message" as the claim states (the store is
still left empty, and 422 is a client error, not a server fault). -/
theorem add_recipe_missing_required_cex :
    (add_recipe_route [] noNameForm .ok).2 = .validationFailure 422 ∧
    isFormResponse (add_recipe_route [] noNameForm .ok).2 = false ∧
    (add_recipe_route [] noNameForm .ok).1 = [] :=
  ⟨by decide, by decide, by decide⟩

/-- Claim C7 (amended): a submission missing any of the seven required
fields fails at the form-binding layer under every database outcome: the
handler body never runs, the store is unchanged so no record is created, and
the failure is surfaced as the framework's ValidationError response with
client-error status 422 — an error document, not a re-rendered form, not a
crash, and not a 5xx server fault. -/
theorem add_recipe_missing_required (s : Store) (fd : FormData) (oc : DbOutcome)
    (h : fd.name = none ∨ fd.cuisine = none ∨ fd.prep_time = none ∨
         fd.cook_time = none ∨ fd.servings = none ∨ fd.ingredients = none ∨
         fd.instructions = none) :
    add_recipe_route s fd oc = (s, .validationFailure 422) ∧
    isFormResponse (add_recipe_route s fd oc).2 = false ∧ 422 < 500 := by
  have hb : bindForm fd = none := by
    unfold bindForm
    rcases h with h | h | h | h | h | h | h <;> simp [fieldMissing, h]
  have hr : add_recipe_route s fd oc = (s, .validationFailure 422) := by
    simp [add_recipe_route, hb]
  exact ⟨hr, by rw [hr]; rfl, by omega⟩

/-- Claim C7 witness: submitting the concrete form with no `name` field
leaves the empty store empty and produces the non-form validation
response. -/
theorem add_recipe_missing_required_w :
    add_recipe_route [] noNameForm .ok = ([], .validationFailure 422) ∧
    isFormResponse (add_recipe_route [] noNameForm .ok).2 = false ∧ 422 < 500 :=
  add_recipe_missing_required [] noNameForm .ok (Or.inl rfl)

/-- Claim C8: the home handler returns every stored record, unpaginated, in
insertion order; in particular after seeding an empty store it returns the
eight demo recipes in their fixed order. -/
theorem home_lists_all :
    (∀ s : Store, (home s).2 = s) ∧
    (home (seed_database [])).2.map (fun r => r.name) =
      ["Spaghetti Carbonara", "Chicken Tikka Masala", "Beef Tacos", "Sushi Rolls",
       "French Onion Soup", "Pad Thai", "Mediterranean Salad", "Classic Lasagna"] :=
  ⟨fun _ => rfl, by decide⟩

/-- Claim C9: every read operation — health check, list, detail, add-form
display, and search — leaves the stored recipes table unchanged. -/
theorem read_handlers_frame (s : Store) (i : Nat) (q : String) :
    (health_check s).1 = s ∧ (home s).1 = s ∧ (recipe_detail s i).1 = s ∧
    (add_recipe_form s).1 = s ∧ (search_recipes s q).1 = s :=
  ⟨rfl, rfl, rfl, rfl, rfl⟩

/-- Claim C10 counterexample: submitting `image_color` as the empty string
does not store the empty string verbatim — the form-binding layer treats an
empty form value as not provided, so the stored value is the default
`"#cccccc"`. -/
theorem image_color_empty_cex :
    ((add_recipe_route [] emptyColorForm .ok).1).map (fun r => r.image_color) = ["#cccccc"] ∧
    ((add_recipe_route [] emptyColorForm .ok).1).map (fun r => r.image_color) ≠ [""] :=
  ⟨by decide, by decide⟩

/-- Claim C10 (amended): the `image_color` default `"#cccccc"` applies when
the field is absent from the submission or submitted as the empty string
(the form-binding layer treats an empty form value as not provided); any
other explicitly submitted value is stored verbatim. -/
theorem image_color_default (fd : FormData) (sub : RecipeData)
    (h : bindForm fd = some sub) :
    (fd.image_color = none → sub.image_color = "#cccccc") ∧
    (fd.image_color = some "" → sub.image_color = "#cccccc") ∧
    (∀ v, fd.image_color = some v → v ≠ "" → sub.image_color = v) := by
  have hsub := bindForm_fields fd sub h
  refine ⟨?_, ?_, ?_⟩
  · intro hv; simp [hsub, hv, fieldMissing]
  · intro hv; simp [hsub, hv, fieldMissing]
  · intro v hv hne; simp [hsub, hv, fieldMissing, hne]

/-- Claim C10 witness: the concrete form that omits `image_color` binds to
the default `"#cccccc"`. -/
theorem image_color_default_w : pieData.image_color = "#cccccc" :=
  (image_color_default pieForm pieData (by decide)).1 rfl
